import Mathlib

/-!
Shallow embedding of the rslox bytecode compiler and VM
(src/rslox/src/{value.rs, object/, chunk.rs, compiler.rs, vm.rs}).

Rust `f64` is modelled as a rational number together with a NaN element;
the IEEE-754 comparison operators used by the VM (`==`, `<`, `>`) are
modelled so that every comparison involving NaN is false, exactly as in
IEEE-754 (the source only ever applies `==`, `<`, `>` to `f64`).
-/

namespace RsLox

/-- Model of Rust `f64` for the purposes of equality and ordering:
a rational payload or NaN. -/
inductive F64 where
  | num : Rat → F64
  | nan : F64
deriving DecidableEq, Repr

/-- IEEE-754 `==` on `f64` (Rust `a == b`): NaN is not equal to anything,
including itself. -/
def F64.feq : F64 → F64 → Bool
  | .num a, .num b => a == b
  | _, _ => false

/-- IEEE-754 `>` on `f64` (Rust `a > b`): false whenever an operand is NaN. -/
def F64.fgt : F64 → F64 → Bool
  | .num a, .num b => decide (b < a)
  | _, _ => false

/-- IEEE-754 `<` on `f64` (Rust `a < b`): false whenever an operand is NaN. -/
def F64.flt : F64 → F64 → Bool
  | .num a, .num b => decide (a < b)
  | _, _ => false

/-- Rust `a + b` on `f64`, restricted to the cases the VM exercises;
NaN propagates. -/
def F64.fadd : F64 → F64 → F64
  | .num a, .num b => .num (a + b)
  | _, _ => .nan

/-- `DefaultHasher`-style hash of a string's contents, as cached by
`ObjString::new` (src/rslox/src/object/string.rs).  The concrete hash
function is irrelevant to the program's behaviour; what matters is that
it is a function of the contents alone. -/
def strHash (s : String) : Nat :=
  s.toList.foldl (fun h c => (h * 31 + c.toNat) % 2 ^ 64) 5381

/- The heap-object model (src/rslox/src/object/).  Every `Rc<dyn Obj>` is
modelled as an address (`Nat`, standing for the heap allocation) paired
with the object's data.  `Rc`'s `PartialEq` dereferences, so the derived
equalities below never consult the address — mirroring the source, where
`impl PartialEq for dyn Obj` compares payloads. -/
mutual

/-- `Value` (src/rslox/src/value.rs): `Bool`, `Nil`, `Number(f64)` or
`Obj(Rc<dyn Obj>)`. -/
inductive Value' where
  | bool : Bool → Value'
  | nil : Value'
  | number : F64 → Value'
  | obj : Nat → ObjData → Value'

/-- The concrete `Obj` implementors dispatched on by `ObjType`
(src/rslox/src/object/mod.rs): String, Function, NativeFunction, Closure,
Class, Instance.  (`BoundMethod.obj_type` names an `ObjType::BoundMethod`
variant that the `ObjType` enum in mod.rs does not declare, so `BoundMethod`
is not representable in the `dyn Obj` equality/display dispatch.) -/
inductive ObjData where
  | str : String → ObjData
  | function : FunctionData → ObjData
  | native : Nat → ObjData
  | closure : ClosureData → ObjData
  | cls : ClassData → ObjData
  | inst : InstanceData → ObjData

/-- `Function` (src/rslox/src/object/function.rs):
`{arity, chunk, name, upvalue_count}`. -/
inductive FunctionData where
  | mk : Nat → ChunkData → String → Nat → FunctionData

/-- `Chunk` (src/rslox/src/chunk.rs): `{code, constants, lines}`;
`lines: HashMap<usize, usize>` is modelled as an association list. -/
inductive ChunkData where
  | mk : List Nat → List Value' → List (Nat × Nat) → ChunkData

/-- `Closure` (src/rslox/src/object/closure.rs):
`{function: Rc<Function>, upvalues: Vec<Rc<RefCell<Upvalue>>>}`. -/
inductive ClosureData where
  | mk : FunctionData → List UpvalueData → ClosureData

/-- `Upvalue` (src/rslox/src/object/closure.rs):
`{location: usize, closed: Option<Value>}`. -/
inductive UpvalueData where
  | mk : Nat → Option Value' → UpvalueData

/-- `Class` (src/rslox/src/object/class.rs):
`{name: ObjString, methods: RefCell<HashMap<ObjString, Rc<Closure>>>}`;
the method table is modelled as an association list. -/
inductive ClassData where
  | mk : String → List (String × ClosureData) → ClassData

/-- `Instance` (src/rslox/src/object/class.rs):
`{class: Rc<Class>, fields: RefCell<HashMap<ObjString, Value>>}`. -/
inductive InstanceData where
  | mk : ClassData → List (String × Value') → InstanceData

end

/-- `ObjType` (src/rslox/src/object/mod.rs). -/
inductive ObjType where
  | string | function | nativeFunction | closure | cls | inst
deriving DecidableEq, Repr

/-- `Obj::obj_type` for each implementor. -/
def ObjData.objType : ObjData → ObjType
  | .str _ => .string
  | .function _ => .function
  | .native _ => .nativeFunction
  | .closure _ => .closure
  | .cls _ => .cls
  | .inst _ => .inst

def FunctionData.arity : FunctionData → Nat
  | .mk a _ _ _ => a

def FunctionData.chunk : FunctionData → ChunkData
  | .mk _ c _ _ => c

def FunctionData.name : FunctionData → String
  | .mk _ _ n _ => n

def FunctionData.upvalueCount : FunctionData → Nat
  | .mk _ _ _ u => u

def ChunkData.code : ChunkData → List Nat
  | .mk c _ _ => c

def ChunkData.constants : ChunkData → List Value'
  | .mk _ k _ => k

def ChunkData.lines : ChunkData → List (Nat × Nat)
  | .mk _ _ l => l

def ClosureData.function : ClosureData → FunctionData
  | .mk f _ => f

def ClosureData.upvalues : ClosureData → List UpvalueData
  | .mk _ u => u

/-- `ObjString::eq` (src/rslox/src/object/string.rs):
`self.hash == other.hash && self.string == other.string`, where the hash
was computed from the contents by `ObjString::new`. -/
def objStringEq (a b : String) : Bool :=
  strHash a == strHash b && a == b

/-- `HashMap::eq` on the `lines` table: same length and every key of `a`
maps to the same value in `b`. -/
def linesEq (a b : List (Nat × Nat)) : Bool :=
  a.length == b.length &&
    a.all (fun kv => (b.lookup kv.1) == some kv.2)

mutual

/-- `impl PartialEq for Value` (src/rslox/src/value.rs): same variant and
equal payload; `Obj` payloads compare via `PartialEq for dyn Obj`. -/
def beqValue : Value' → Value' → Bool
  | .bool a, .bool b => a == b
  | .nil, .nil => true
  | .number a, .number b => F64.feq a b
  | .obj _ a, .obj _ b => beqObj a b
  | _, _ => false

/-- `impl PartialEq for dyn Obj` (src/rslox/src/object/mod.rs): unequal
`obj_type`s are never equal; otherwise downcast both sides and compare the
concrete types' `PartialEq` (derived ones compare componentwise). -/
def beqObj : ObjData → ObjData → Bool
  | .str a, .str b => objStringEq a b
  | .function a, .function b => beqFunction a b
  | .native a, .native b => a == b
  | .closure a, .closure b => beqClosure a b
  | .cls a, .cls b => beqClass a b
  | .inst a, .inst b => beqInstance a b
  | _, _ => false

/-- Derived `PartialEq` for `Function`: arity, chunk, name, upvalue_count. -/
def beqFunction : FunctionData → FunctionData → Bool
  | .mk a₁ c₁ n₁ u₁, .mk a₂ c₂ n₂ u₂ =>
    a₁ == a₂ && beqChunk c₁ c₂ && n₁ == n₂ && u₁ == u₂

/-- Derived `PartialEq` for `Chunk`: code, constants, lines. -/
def beqChunk : ChunkData → ChunkData → Bool
  | .mk c₁ k₁ l₁, .mk c₂ k₂ l₂ =>
    c₁ == c₂ && beqValueList k₁ k₂ && linesEq l₁ l₂

def beqValueList : List Value' → List Value' → Bool
  | [], [] => true
  | a :: as', b :: bs => beqValue a b && beqValueList as' bs
  | _, _ => false

/-- Derived `PartialEq` for `Closure`: `Rc<Function>` compares pointees,
`Vec<Rc<RefCell<Upvalue>>>` compares elementwise by value. -/
def beqClosure : ClosureData → ClosureData → Bool
  | .mk f₁ u₁, .mk f₂ u₂ => beqFunction f₁ f₂ && beqUpvalueList u₁ u₂

def beqUpvalueList : List UpvalueData → List UpvalueData → Bool
  | [], [] => true
  | a :: as', b :: bs => beqUpvalue a b && beqUpvalueList as' bs
  | _, _ => false

/-- Derived `PartialEq` for `Upvalue`: location and closed cell. -/
def beqUpvalue : UpvalueData → UpvalueData → Bool
  | .mk l₁ c₁, .mk l₂ c₂ => l₁ == l₂ && beqOptValue c₁ c₂

def beqOptValue : Option Value' → Option Value' → Bool
  | none, none => true
  | some a, some b => beqValue a b
  | _, _ => false

/-- Derived `PartialEq` for `Class`: name and methods map (`HashMap` equality:
same length and every entry of the left map present in the right). -/
def beqClass : ClassData → ClassData → Bool
  | .mk n₁ m₁, .mk n₂ m₂ =>
    objStringEq n₁ n₂ && m₁.length == m₂.length && beqMethods m₁ m₂

def beqMethods : List (String × ClosureData) → List (String × ClosureData) → Bool
  | [], _ => true
  | (k, v) :: rest, m =>
    (match lookupMethod k m with
     | some v' => beqClosure v v'
     | none => false) && beqMethods rest m

def lookupMethod : String → List (String × ClosureData) → Option ClosureData
  | _, [] => none
  | k, (k', v) :: rest => if k == k' then some v else lookupMethod k rest

/-- Derived `PartialEq` for `Instance`: class and fields map. -/
def beqInstance : InstanceData → InstanceData → Bool
  | .mk c₁ f₁, .mk c₂ f₂ =>
    beqClass c₁ c₂ && f₁.length == f₂.length && beqFields f₁ f₂

def beqFields : List (String × Value') → List (String × Value') → Bool
  | [], _ => true
  | (k, v) :: rest, m =>
    (match lookupField k m with
     | some v' => beqValue v v'
     | none => false) && beqFields rest m

def lookupField : String → List (String × Value') → Option Value'
  | _, [] => none
  | k, (k', v) :: rest => if k == k' then some v else lookupField k rest

end

/-! ## Value display (src/rslox/src/value.rs `Display`, src/rslox/src/object/) -/

/-- Rust's default `f64` `Display`; the exact numeric rendering is not relied
on by any claim, only that it is a function of the number. -/
def displayF64 : F64 → String
  | .num q => toString q
  | .nan => "NaN"

/-- `Display for Function` (src/rslox/src/object/function.rs):
`<script>` for the empty name, else `<fn NAME>`. -/
def displayFunction (f : FunctionData) : String :=
  if f.name == "" then "<script>" else "<fn " ++ f.name ++ ">"

/-- `Display for dyn Obj` (src/rslox/src/object/mod.rs): note that the
`ObjType::String` arm writes the contents wrapped in double quotes
(`write!(fmt, "\"{}\"", ...)`). -/
def displayObj : ObjData → String
  | .str s => "\"" ++ s ++ "\""
  | .function f => displayFunction f
  | .native _ => "<native fn>"
  | .closure c => displayFunction c.function
  | .cls (.mk n _) => n
  | .inst (.mk (.mk n _) _) => n ++ " instance"

/-- `Display for Value` (src/rslox/src/value.rs). -/
def displayValue : Value' → String
  | .bool b => if b then "true" else "false"
  | .nil => "nil"
  | .number x => displayF64 x
  | .obj _ o => displayObj o

/-! ## The VM (src/rslox/src/vm.rs)

`RunCtx` holds a frame stack (`ArrayVec<CallFrame, FRAMES_MAX>`), a value
stack (`ArrayVec<Value, STACK_MAX>`), the open-upvalue list and the cached
`init` string; the `VM` itself holds the globals table.  Here the frame and
value stacks are lists with the top at the END (mirroring `Vec` indices);
`ArrayVec` capacity overflow and `unwrap`/indexing failures are modelled by
the `crash` outcome.  The open-upvalue list only shares state with closure
cells, which no claim below reads through the VM loop, so `capture_upvalue`
and `close_upvalues` are modelled separately on the list of open locations. -/

/-- `FRAMES_MAX` (src/rslox/src/vm.rs line 66): `u8::MAX as usize`. -/
def FRAMES_MAX : Nat := 255

/-- `STACK_MAX` (src/rslox/src/vm.rs line 67): `u8::MAX as usize`. -/
def STACK_MAX : Nat := 255

structure CallFrame where
  closure : ClosureData
  ip : Nat
  slotsBase : Nat

structure VmState where
  frames : List CallFrame
  stack : List Value'
  globals : List (String × Value')
  output : String

/-- Outcome of executing one instruction (or of a whole run). -/
inductive StepResult where
  | next : VmState → StepResult
  | halt : VmState → StepResult
  | err : VmState → String → StepResult
  | crash : StepResult
  | unmodeled : StepResult

/-- `ArrayVec::push` on the value stack: appends, or aborts the process
(capacity overflow) when the stack already holds `STACK_MAX` values.
Note `RunCtx::push` performs NO "Stack overflow." check. -/
def avPush (s : List Value') (v : Value') : Option (List Value') :=
  if s.length < STACK_MAX then some (s ++ [v]) else none

/-- `Vec::pop().unwrap()`: top of the stack and the rest, or a crash. -/
def vpop (s : List Value') : Option (Value' × List Value') :=
  match s.getLast? with
  | some v => some (v, s.dropLast)
  | none => none

/-- `RunCtx::runtime_error`: prints a trace, CLEARS THE VALUE STACK
(`reset_stack` is `self.stack.clear()`; the frame stack is untouched)
and returns the error. -/
def runtimeErrorStep (st : VmState) (msg : String) : StepResult :=
  .err { st with stack := [] } msg

/-- Advance the instruction pointer of the current (= last) frame. -/
def bumpIp (st : VmState) (k : Nat) : VmState :=
  match st.frames.getLast? with
  | none => st
  | some fr =>
    { st with frames := st.frames.dropLast ++ [{ fr with ip := fr.ip + k }] }

/-- `RunCtx::binary_op_compare` (src/rslox/src/vm.rs lines 148-159): pop b
then a; on two numbers push `Bool (op a b)`, otherwise runtime error
"Operands must be numbers.". -/
def binaryOpCompare (st : VmState) (op : F64 → F64 → Bool) : StepResult :=
  match vpop st.stack with
  | none => .crash
  | some (b, s₁) =>
    match vpop s₁ with
    | none => .crash
    | some (a, s₂) =>
      match a, b with
      | .number x, .number y =>
        match avPush s₂ (.bool (op x y)) with
        | some s₃ => .next { st with stack := s₃ }
        | none => .crash
      | _, _ => runtimeErrorStep st "Operands must be numbers."

/-- The `OpCode::GetGlobal` arm of `VM::run` (src/rslox/src/vm.rs lines
418-422): read the name from the constant table (`unwrap` on a non-string),
then push `self.globals.get(name).unwrap_or(&Value::Nil)` — an absent name
pushes `Nil`; there is no runtime error in this arm. -/
def execGetGlobal (st : VmState) (consts : List Value') (idx : Nat) : StepResult :=
  match consts.get? idx with
  | some (.obj _ (.str name)) =>
    match avPush st.stack ((st.globals.lookup name).getD .nil) with
    | some s => .next { st with stack := s }
    | none => .crash
  | some _ => .crash
  | none => .crash

/-- The `OpCode::Not` arm of `VM::run` (src/rslox/src/vm.rs lines 564-571). -/
def execNot (st : VmState) : StepResult :=
  match vpop st.stack with
  | none => .crash
  | some (v, s₁) =>
    let pushed :=
      match v with
      | .bool b => Value'.bool (!b)
      | .nil => Value'.bool true
      | _ => Value'.bool false
    match avPush s₁ pushed with
    | some s₂ => .next { st with stack := s₂ }
    | none => .crash

/-- The `OpCode::Add` arm of `VM::run` (src/rslox/src/vm.rs lines 521-547):
two numbers add; two strings concatenate into a fresh `ObjString`
(modelled at heap address 0); anything else is the runtime error
"Operands must be two numbers or two strings.". -/
def execAdd (st : VmState) : StepResult :=
  match vpop st.stack with
  | none => .crash
  | some (b, s₁) =>
    match vpop s₁ with
    | none => .crash
    | some (a, s₂) =>
      match a, b with
      | .number x, .number y =>
        match avPush s₂ (.number (F64.fadd x y)) with
        | some s₃ => .next { st with stack := s₃ }
        | none => .crash
      | .obj _ oa, .obj _ ob =>
        match oa, ob with
        | .str sa, .str sb =>
          match avPush s₂ (.obj 0 (.str (sa ++ sb))) with
          | some s₃ => .next { st with stack := s₃ }
          | none => .crash
        | _, _ =>
          runtimeErrorStep st "Operands must be two numbers or two strings."
      | _, _ =>
        runtimeErrorStep st "Operands must be two numbers or two strings."

/-- The `OpCode::Print` arm of `VM::run` (src/rslox/src/vm.rs lines 572-575):
pop the value and `println!("{}", value)`. -/
def execPrint (st : VmState) : StepResult :=
  match vpop st.stack with
  | none => .crash
  | some (v, s₁) =>
    .next { st with stack := s₁, output := st.output ++ displayValue v ++ "\n" }

/-- The `OpCode::Return` arm of `VM::run` (src/rslox/src/vm.rs lines
645-658): pop the result, close upvalues at or above the frame base, pop
the frame; if no frame remains return `Ok(())` — WITHOUT popping the
script closure still sitting at stack slot 0 — else truncate to the frame
base and push the result. -/
def execReturn (st : VmState) (base : Nat) : StepResult :=
  match vpop st.stack with
  | none => .crash
  | some (result, s₁) =>
    let frames' := st.frames.dropLast
    if frames'.isEmpty then
      .halt { st with frames := frames', stack := s₁ }
    else
      match avPush (s₁.take base) result with
      | some s₂ => .next { st with frames := frames', stack := s₂ }
      | none => .crash

/-- One iteration of `VM::run`'s fetch-decode-execute loop, for the opcode
arms the claims below exercise; `unmodeled` marks the remaining arms.
Opcode numbers follow the `OpCode` enum order (src/rslox/src/chunk.rs). -/
def step (st : VmState) : StepResult :=
  match st.frames.getLast? with
  | none => .crash
  | some fr =>
    let code := fr.closure.function.chunk.code
    let consts := fr.closure.function.chunk.constants
    match code.get? fr.ip with
    | none => .crash
    | some instr =>
      if instr == 0 then -- Constant
        match code.get? (fr.ip + 1) with
        | none => .crash
        | some idx =>
          match consts.get? idx with
          | none => .crash
          | some c =>
            match avPush st.stack c with
            | some s => .next { bumpIp st 2 with stack := s }
            | none => .crash
      else if instr == 1 then -- Nil
        match avPush st.stack .nil with
        | some s => .next { bumpIp st 1 with stack := s }
        | none => .crash
      else if instr == 2 then -- True
        match avPush st.stack (.bool true) with
        | some s => .next { bumpIp st 1 with stack := s }
        | none => .crash
      else if instr == 3 then -- False
        match avPush st.stack (.bool false) with
        | some s => .next { bumpIp st 1 with stack := s }
        | none => .crash
      else if instr == 4 then -- Pop
        match vpop st.stack with
        | some (_, s) => .next { bumpIp st 1 with stack := s }
        | none => .crash
      else if instr == 7 then -- GetGlobal
        match code.get? (fr.ip + 1) with
        | none => .crash
        | some idx => execGetGlobal (bumpIp st 2) consts idx
      else if instr == 14 then -- Equal
        match vpop st.stack with
        | none => .crash
        | some (b, s₁) =>
          match vpop s₁ with
          | none => .crash
          | some (a, s₂) =>
            match avPush s₂ (.bool (beqValue a b)) with
            | some s₃ => .next { bumpIp st 1 with stack := s₃ }
            | none => .crash
      else if instr == 15 then -- Greater
        binaryOpCompare (bumpIp st 1) F64.fgt
      else if instr == 16 then -- Less
        binaryOpCompare (bumpIp st 1) F64.flt
      else if instr == 17 then -- Add
        execAdd (bumpIp st 1)
      else if instr == 22 then -- Not
        execNot (bumpIp st 1)
      else if instr == 23 then -- Print
        execPrint (bumpIp st 1)
      else if instr == 30 then -- Return
        execReturn (bumpIp st 1) fr.slotsBase
      else
        .unmodeled

/-- Iterate `step` for at most `fuel` instructions; `next` carries the state
reached when the fuel runs out. -/
def runState : Nat → VmState → StepResult
  | 0, st => .next st
  | fuel + 1, st =>
    match step st with
    | .next st' => runState fuel st'
    | r => r

/-- `RunCtx::call` (src/rslox/src/vm.rs lines 161-181): "Stack overflow."
when the frame stack is at capacity (checked FIRST), arity-mismatch error
otherwise, else push a frame with `slots_base = stack.len - argc - 1`. -/
def vmCall (st : VmState) (closure : ClosureData) (argCount : Nat) : StepResult :=
  if FRAMES_MAX ≤ st.frames.length then
    runtimeErrorStep st "Stack overflow."
  else if argCount ≠ closure.function.arity then
    runtimeErrorStep st
      ("Expected " ++ toString closure.function.arity ++
        " arguments but got " ++ toString argCount ++ ".")
  else
    .next { st with
      frames := st.frames ++ [⟨closure, 0, st.stack.length - argCount - 1⟩] }

/-- The `NativeFunction` branch of `RunCtx::call_value` (src/rslox/src/vm.rs
lines 203-209): NO arity check — slice the top `argc` values, apply the
native, truncate the stack by `argc + 1` and push the result.  `none`
models the index/underflow aborts when fewer than `argc + 1` values are on
the stack. -/
def callNative (st : VmState) (native : List Value' → Value') (argCount : Nat) :
    Option VmState :=
  if argCount + 1 ≤ st.stack.length then
    let args := st.stack.drop (st.stack.length - argCount)
    let result := native args
    match avPush (st.stack.take (st.stack.length - argCount - 1)) result with
    | some s => some { st with stack := s }
    | none => none
  else none

/-- `VM::clock_native` (src/rslox/src/vm.rs lines 730-734): ignores its
arguments entirely and returns the wall-clock seconds (a pure parameter
here) as a Number. -/
def clock_native (now : Rat) (_args : List Value') : Value' :=
  .number (.num now)

/-- The globals table right after `VM::new`: `define_native("clock", ...)`
(src/rslox/src/vm.rs lines 352-360). -/
def bootGlobals : List (String × Value') := [("clock", .obj 1 (.native 1))]

/-- `VM::interpret` after compilation (src/rslox/src/vm.rs lines 362-375):
wrap the top-level function in a zero-upvalue closure, push it, `call` it
with 0 arguments, then run. -/
def interpret (f : FunctionData) (fuel : Nat) : StepResult :=
  let closure : ClosureData := .mk f []
  let st₀ : VmState :=
    { frames := [], stack := [], globals := bootGlobals, output := "" }
  match avPush st₀.stack (.obj 2 (.closure closure)) with
  | none => .crash
  | some s =>
    match vmCall { st₀ with stack := s } closure 0 with
    | .next st₁ => runState fuel st₁
    | r => r

/-- Final state of a successful `interpret` (reaching `Ok(())`). -/
def interpretFinal (f : FunctionData) (fuel : Nat) : Option VmState :=
  match interpret f fuel with
  | .halt st => some st
  | _ => none

/-- Stdout of a successful `interpret`. -/
def interpretOutput (f : FunctionData) (fuel : Nat) : Option String :=
  (interpretFinal f fuel).map VmState.output

/-! ## `RunCtx::capture_upvalue` (src/rslox/src/vm.rs lines 225-248)

The open-upvalue list is modelled by its list of `location` stack indices
(the `Rc<RefCell<...>>` cells carry no other state while open).  The source
walks a `LinkedList` cursor obtained by `cursor_front_mut()`:

    let mut next = cursor.current();
    while let Some(upvalue) = next {
        if location == stack_offset { return upvalue; }
        if location < stack_offset { break; }
        next = cursor.peek_next();
    }
    ... cursor.insert_after(created_upvalue) ...

`peek_next` RETURNS the element after the cursor but NEVER MOVES the
cursor, and nothing else moves it: after the first iteration every further
iteration re-examines the element at index 1, and `insert_after` always
inserts directly after the front element.  The model makes the examined
index explicit (`0` for `current()`, then always `1`), with `fuel`
bounding the number of loop iterations; `none` means the fuel ran out. -/

/-- `cursor.insert_after(...)` with the cursor still at the front: after
the first element, or at the front of an empty list. -/
def insertAfterCursor (l : List Nat) (off : Nat) : List Nat :=
  match l with
  | [] => [off]
  | x :: xs => x :: off :: xs

/-- The `while let` search loop of `capture_upvalue`; `n` is the index the
next iteration examines, and the result is the open list after the call
paired with `true` iff an existing upvalue was reused. -/
def capGo (l : List Nat) (off : Nat) : Nat → Nat → Option (List Nat × Bool)
  | _, 0 => none
  | n, fuel + 1 =>
    match l.get? n with
    | none => some (insertAfterCursor l off, false)
    | some loc =>
      if loc == off then some (l, true)
      else if loc < off then some (insertAfterCursor l off, false)
      else capGo l off 1 fuel

/-- `RunCtx::capture_upvalue` on the open-location list. -/
def capture_upvalue (l : List Nat) (off : Nat) (fuel : Nat) :
    Option (List Nat × Bool) :=
  capGo l off 0 fuel

/-! ## `Chunk::add_constant` (src/rslox/src/chunk.rs lines 71-78) -/

/-- `add_constant`: error "Too many constants in one chunk." when the
table already holds `u8::MAX as usize = 255` entries, else append and
return the new index. -/
def add_constant (constants : List Value') (v : Value') :
    Except String (List Value' × Nat) :=
  if 255 ≤ constants.length then
    .error "Too many constants in one chunk."
  else
    .ok (constants ++ [v], constants.length)

/-! ## The compiler's parameter list (src/rslox/src/compiler.rs)

`Compiler::function` (lines 1002-1044) parses each parameter by
incrementing `function.arity`, erroring past 255, then declaring the
parameter through the local-variable path (`parse_variable` →
`declare_variable` → `add_local`, then `define_variable` →
`mark_initialized`, all at `scope_depth = 1`).  `CompilationUnit::new`
seeds `locals` with the reserved slot 0, and `add_local` (lines 811-822)
errors with "Too many local variables in function." once
`locals.len() == u8::MAX as usize = 255`.  Token lexemes are modelled as
`Nat` identifiers (the reserved slot is `0`, parameters `1, 2, ...`, all
distinct); `error_at` (lines 1198-1216) records a message only when
`panic_mode` is off and then turns `panic_mode` on, so within one
parameter list only the FIRST error message is reported. -/

structure ParamCtx where
  arity : Nat
  locals : List (Nat × Int × Bool)
  errors : List String
  panicMode : Bool

/-- `Compiler::error` / `error_at`: suppressed in panic mode; otherwise
report and enter panic mode (`had_error` is `errors ≠ []`). -/
def compilerError (c : ParamCtx) (msg : String) : ParamCtx :=
  if c.panicMode then c
  else { c with errors := c.errors ++ [msg], panicMode := true }

/-- `Compiler::add_local` (lines 811-822). -/
def add_local (c : ParamCtx) (name : Nat) : ParamCtx :=
  if c.locals.length == 255 then
    compilerError c "Too many local variables in function."
  else
    { c with locals := c.locals ++ [(name, -1, false)] }

/-- The duplicate scan of `declare_variable` (lines 752-769), walking the
locals from the top and stopping at the first local of an outer scope
(`depth ≥ 0 && depth < scope_depth`, with `scope_depth = 1` here). -/
def declareScan (name : Nat) : List (Nat × Int × Bool) → Bool
  | [] => false
  | (n, d, _) :: rest =>
    if 0 ≤ d ∧ d < 1 then false
    else if n == name then true
    else declareScan name rest

/-- `Compiler::declare_variable` at local scope. -/
def declare_variable (c : ParamCtx) (name : Nat) : ParamCtx :=
  if declareScan name c.locals.reverse then
    compilerError c "Already a variable with this name in this scope."
  else
    add_local c name

/-- `Compiler::mark_initialized` (lines 851-856) at `scope_depth = 1`. -/
def mark_initialized (c : ParamCtx) : ParamCtx :=
  match c.locals.getLast? with
  | none => c
  | some (n, _, cap) => { c with locals := c.locals.dropLast ++ [(n, 1, cap)] }

/-- One parameter of `Compiler::function` (lines 1014-1027): bump the
arity, error past 255, then `parse_variable` + `define_variable`. -/
def paramStep (c : ParamCtx) (name : Nat) : ParamCtx :=
  let c₁ := { c with arity := c.arity + 1 }
  let c₂ :=
    if 255 < c₁.arity then
      compilerError c₁ "Can't have more than 255 parameters."
    else c₁
  mark_initialized (declare_variable c₂ name)

/-- The compilation unit entering the parameter list: the reserved slot 0
(`depth = 0`) only. -/
def initialParamCtx : ParamCtx :=
  { arity := 0, locals := [(0, 0, false)], errors := [], panicMode := false }

/-- Compile a parameter list of `n` distinct parameters. -/
def compileParams (n : Nat) : ParamCtx :=
  ((List.range n).map (· + 1)).foldl paramStep initialParamCtx

/-! ## `Compiler::binary` comparison emission (src/rslox/src/compiler.rs
lines 585-609) -/

inductive CmpTok where
  | less | lessEqual | greater | greaterEqual
deriving DecidableEq, Repr

/-- The opcode bytes `Compiler::binary` emits for each comparison operator:
`<=` is `Greater` (15) then `Not` (22), `>=` is `Less` (16) then `Not`. -/
def emitComparison : CmpTok → List Nat
  | .greater => [15]
  | .greaterEqual => [16, 22]
  | .less => [16]
  | .lessEqual => [15, 22]

/-- A chunk evaluating `a OP b` for number literals: the two constants then
the emitted comparison bytes. -/
def cmpChunk (t : CmpTok) (a b : F64) : FunctionData :=
  .mk 0 (.mk ([0, 0, 0, 1] ++ emitComparison t) [.number a, .number b] []) "" 0

/-- Run the comparison chunk to just past its last instruction and return
the resulting value stack. -/
def runCmp (t : CmpTok) (a b : F64) : StepResult :=
  runState (2 + (emitComparison t).length)
    { frames := [⟨.mk (cmpChunk t a b) [], 0, 0⟩], stack := [],
      globals := bootGlobals, output := "" }

/-! ## Concrete compiled programs -/

/-- The top-level function the compiler produces for the empty program:
`emit_return` appends `Nil` then `Return` (src/rslox/src/compiler.rs lines
535-542). -/
def emptyProgramFn : FunctionData :=
  .mk 0 (.mk [1, 30] [] [(0, 0), (1, 0)]) "" 0

/-- The top-level function for `print "foo" + "bar" + "baz";`:
Constant 0, Constant 1, Add, Constant 2, Add, Print, Nil, Return, with the
three string literals (quotes stripped by `Compiler::string`) in the
constant table. -/
def printConcatFn : FunctionData :=
  .mk 0
    (.mk [0, 0, 0, 1, 17, 0, 2, 17, 23, 1, 30]
      [.obj 3 (.str "foo"), .obj 4 (.str "bar"), .obj 5 (.str "baz")]
      [(0, 1), (1, 1), (2, 1), (3, 1), (4, 1), (5, 1), (6, 1), (7, 1),
        (8, 1), (9, 1), (10, 1)])
    "" 0

/-- The top-level function for `print x;` with `x` never defined:
GetGlobal 0, Print, Nil, Return, constant 0 the name `"x"`. -/
def printUndefinedFn : FunctionData :=
  .mk 0 (.mk [7, 0, 23, 1, 30] [.obj 3 (.str "x")]
    [(0, 1), (1, 1), (2, 1), (3, 1), (4, 1)]) "" 0

/-- The value-stack shape of the comparison chunk after it has fully run. -/
def cmpResult (t : CmpTok) (a b : F64) (r : Bool) : VmState :=
  { frames := [⟨.mk (cmpChunk t a b) [], 4 + (emitComparison t).length, 0⟩],
    stack := [.bool r], globals := bootGlobals, output := "" }

/-! ## Claims -/

/-- Claim C1, counterexample: running `print x;` with `x` undefined does NOT
produce a RuntimeError — `interpret` succeeds and prints `nil`, because the
GetGlobal arm substitutes `Nil` for a missing global. -/
theorem getGlobal_undefined_no_error :
    interpretOutput printUndefinedFn 10 = some "nil\n" := by
  rfl

/-- Claim C1, amended: executing GetGlobal pushes the bound value when the
name is a key of the globals table and pushes `Nil` when it is not; no
runtime error is raised in either case. -/
theorem getGlobal_pushes_lookup_or_nil
    (st : VmState) (consts : List Value') (idx a : Nat) (name : String)
    (hc : consts.get? idx = some (.obj a (.str name)))
    (hlen : st.stack.length < STACK_MAX) :
    execGetGlobal st consts idx =
      .next { st with stack := st.stack ++ [(st.globals.lookup name).getD .nil] } := by
  simp only [execGetGlobal]
  rw [hc]
  simp [avPush, hlen]

/-- Claim C1, witness. -/
theorem getGlobal_pushes_lookup_or_nil_witness :
    execGetGlobal ⟨[], [], [], ""⟩ [.obj 0 (.str "x")] 0 =
      .next ⟨[], [(([] : List (String × Value')).lookup "x").getD .nil], [], ""⟩ :=
  getGlobal_pushes_lookup_or_nil ⟨[], [], [], ""⟩ [.obj 0 (.str "x")] 0 0 "x"
    rfl (by decide)

/-- Claim C2, counterexample: `print "foo" + "bar" + "baz";` writes
`"foobarbaz"` WITH surrounding double quotes (the `ObjType::String` arm of
`Display for dyn Obj` is `write!(fmt, "\"{}\"", ...)`), so the printed line
is not the raw contents `foobarbaz`. -/
theorem print_concat_has_quotes :
    interpretOutput printConcatFn 20 = some "\"foobarbaz\"\n" ∧
      ("\"foobarbaz\"\n" : String) ≠ "foobarbaz\n" := by
  exact ⟨rfl, by decide⟩

/-- Claim C2, amended: executing Print on a String value writes the
character contents SURROUNDED BY DOUBLE QUOTES followed by a newline; in
particular the example program prints the line `"foobarbaz"`. -/
theorem print_string_writes_quoted
    (st : VmState) (s' : List Value') (a : Nat) (s : String)
    (hstack : st.stack = s' ++ [.obj a (.str s)]) :
    execPrint st =
      .next { st with stack := s',
                      output := st.output ++ "\"" ++ s ++ "\"" ++ "\n" } ∧
      interpretOutput printConcatFn 20 = some "\"foobarbaz\"\n" := by
  constructor
  · simp [execPrint, vpop, hstack, displayValue, displayObj,
      String.append_assoc]
  · rfl

/-- Claim C2, witness. -/
theorem print_string_writes_quoted_witness :
    execPrint ⟨[], [.obj 0 (.str "hi")], [], ""⟩ =
      .next { (⟨[], [.obj 0 (.str "hi")], [], ""⟩ : VmState) with
              stack := ([] : List Value'),
              output := "" ++ "\"" ++ "hi" ++ "\"" ++ "\n" } ∧
      interpretOutput printConcatFn 20 = some "\"foobarbaz\"\n" :=
  print_string_writes_quoted ⟨[], [.obj 0 (.str "hi")], [], ""⟩ [] 0 "hi" rfl

/-- `ObjString` equality coincides with content equality: the cached hash
is a function of the contents. -/
theorem objStringEq_eq_beq (s₁ s₂ : String) : objStringEq s₁ s₂ = (s₁ == s₂) := by
  by_cases h : s₁ = s₂
  · subst h; simp [objStringEq]
  · simp [objStringEq, h]

/-- Claim C3, counterexample: two Function objects at DIFFERENT heap
allocations (addresses 1 and 2) with equal fields compare equal — object
kinds other than String compare by structural value, not by identity. -/
theorem function_eq_not_identity :
    beqValue (.obj 1 (.function (.mk 0 (.mk [] [] []) "f" 0)))
        (.obj 2 (.function (.mk 0 (.mk [] [] []) "f" 0))) = true ∧
      (1 : Nat) ≠ 2 := by
  refine ⟨?_, by decide⟩
  simp [beqValue, beqObj, beqFunction, beqChunk, beqValueList, linesEq]

/-- Claim C3, amended: Value equality requires the same variant; Numbers
use IEEE-754 equality (NaN ≠ NaN); objects of distinct kinds are never
equal; Strings compare by content; and every other object kind compares by
STRUCTURAL VALUE (the derived `PartialEq` of the payload, dereferencing
through `Rc`) — the heap address is never consulted.  (`BoundMethod` does
not appear: its `obj_type` names an `ObjType::BoundMethod` variant absent
from the `ObjType` enum, so it has no arm in the equality dispatch.) -/
theorem value_eq_structural :
    (∀ x y : F64, beqValue (.number x) (.number y) = F64.feq x y) ∧
      beqValue (.number .nan) (.number .nan) = false ∧
      (∀ a₁ a₂ : Nat, ∀ s₁ s₂ : String,
        beqValue (.obj a₁ (.str s₁)) (.obj a₂ (.str s₂)) = (s₁ == s₂)) ∧
      (∀ a₁ a₂ : Nat, ∀ p₁ p₂ : ObjData,
        beqValue (.obj a₁ p₁) (.obj a₂ p₂) = beqObj p₁ p₂) ∧
      (∀ p₁ p₂ : ObjData, beqObj p₁ p₂ = true → p₁.objType = p₂.objType) ∧
      (∀ a₁ a₂ : Nat, ∀ f₁ f₂ : FunctionData,
        beqValue (.obj a₁ (.function f₁)) (.obj a₂ (.function f₂)) =
          beqFunction f₁ f₂) := by
  refine ⟨?_, ?_, ?_, ?_, ?_, ?_⟩
  · intro x y
    simp [beqValue]
  · simp [beqValue, F64.feq]
  · intro a₁ a₂ s₁ s₂
    simpa [beqValue, beqObj] using objStringEq_eq_beq s₁ s₂
  · intro a₁ a₂ p₁ p₂
    simp [beqValue]
  · intro p₁ p₂ h
    cases p₁ <;> cases p₂ <;> simp_all [beqObj, ObjData.objType]
  · intro a₁ a₂ f₁ f₂
    simp [beqValue, beqObj]

/-- Claim C3, witness. -/
theorem value_eq_structural_witness :
    (ObjData.str "a").objType = (ObjData.str "a").objType :=
  value_eq_structural.2.2.2.2.1 (.str "a") (.str "a")
    (by simp [beqObj, objStringEq])

/-- The `capture_upvalue` loop never finishes once it has moved past the
front: the cursor is never advanced, so `peek_next` re-delivers the element
at index 1 forever. -/
theorem capGo_stuck (fuel : Nat) : capGo [10, 8, 5] 5 1 fuel = none := by
  induction fuel with
  | zero => rfl
  | succ n ih => simpa [capGo] using ih

/-- Claim C4, code_bug: with open upvalues at stack indices `[10, 8, 5]`
(sorted descending) the search for index 5 NEVER terminates — even though
an open upvalue with that exact location exists — because `peek_next` does
not move the cursor; and when the loop does break at the front (list `[3]`,
new index 5), `insert_after` places the new upvalue AFTER the front,
producing `[3, 5]`, which is not sorted by descending stack index. -/
theorem capture_upvalue_diverges :
    (∀ fuel : Nat, capture_upvalue [10, 8, 5] 5 fuel = none) ∧
      capture_upvalue [3] 5 2 = some ([3, 5], false) ∧
      ¬ List.Chain' (fun a b => b ≤ a) [3, 5] := by
  refine ⟨?_, rfl, by simp⟩
  intro fuel
  cases fuel with
  | zero => rfl
  | succ n => simpa [capture_upvalue, capGo] using capGo_stuck n

/-- Claim C5, counterexample: both limits are `u8::MAX as usize = 255`, not
256; and the value stack has no "Stack overflow." path at all — pushing
onto a full 255-element stack is an `ArrayVec` capacity abort (modelled by
`none`), not a runtime error. -/
theorem stack_limits_not_256 :
    FRAMES_MAX ≠ 256 ∧ STACK_MAX ≠ 256 ∧
      avPush (List.replicate 255 Value'.nil) Value'.nil = none := by
  refine ⟨by decide, by decide, ?_⟩
  rw [avPush, List.length_replicate, if_neg (by rw [STACK_MAX]; omega)]

/-- Claim C5, amended: both limits are 255 (`u8::MAX as usize`);
`RunCtx::call` yields the runtime error "Stack overflow." exactly when the
frame stack already holds 255 frames (the check precedes the arity check),
while exceeding the VALUE-stack capacity is an `ArrayVec::push` capacity
abort with no runtime error. -/
theorem stack_limits_255 :
    FRAMES_MAX = 255 ∧ STACK_MAX = 255 ∧
      (∀ (st : VmState) (cl : ClosureData) (argc : Nat),
        argc = cl.function.arity →
          (vmCall st cl argc = .err { st with stack := [] } "Stack overflow." ↔
            FRAMES_MAX ≤ st.frames.length)) ∧
      (∀ (s : List Value') (v : Value'),
        avPush s v = none ↔ STACK_MAX ≤ s.length) := by
  refine ⟨rfl, rfl, ?_, ?_⟩
  · intro st cl argc hargc
    constructor
    · intro h
      by_contra hlt
      rw [vmCall, if_neg hlt, if_neg (by simp [hargc])] at h
      exact StepResult.noConfusion h
    · intro h
      rw [vmCall, if_pos h]
      rfl
  · intro s v
    constructor
    · intro h
      by_contra hlt
      rw [avPush, if_pos (by omega)] at h
      exact Option.noConfusion h
    · intro h
      rw [avPush, if_neg (by omega)]

/-- Claim C5, witness. -/
theorem stack_limits_255_witness :
    vmCall
        ⟨List.replicate 255 ⟨.mk emptyProgramFn [], 0, 0⟩, [], [], ""⟩
        (.mk emptyProgramFn []) 0 =
      .err ⟨List.replicate 255 ⟨.mk emptyProgramFn [], 0, 0⟩, [], [], ""⟩
        "Stack overflow." :=
  (stack_limits_255.2.2.1
      ⟨List.replicate 255 ⟨.mk emptyProgramFn [], 0, 0⟩, [], [], ""⟩
      (.mk emptyProgramFn []) 0 rfl).mpr
    (by rw [List.length_replicate]; exact Nat.le_refl 255)

/-- Claim C6, counterexample: after a successful `interpret` of the empty
program the value stack is NOT empty — it still holds the top-level script
closure, which the final `Return` never pops. -/
theorem interpret_stack_not_empty :
    (interpretFinal emptyProgramFn 5).map (fun st => st.stack.length) =
        some 1 ∧
      (1 : Nat) ≠ 0 :=
  ⟨rfl, by decide⟩

/-- Claim C6, amended: when `interpret` succeeds the FRAME stack is empty
but the value stack still holds exactly the top-level script closure (slot
0 of the root frame, never popped by the final `Return`); in general,
executing `Return` in the last remaining frame halts with the frame stack
empty and the value stack as it was minus only the popped result. -/
theorem interpret_leaves_script_closure :
    interpretFinal emptyProgramFn 5 =
        some { frames := [],
               stack := [.obj 2 (.closure (.mk emptyProgramFn []))],
               globals := bootGlobals, output := "" } ∧
      (∀ (st : VmState) (f : CallFrame) (base : Nat) (s : List Value')
          (result : Value'),
        st.frames = [f] → st.stack = s ++ [result] →
          execReturn st base = .halt { st with frames := [], stack := s }) := by
  refine ⟨rfl, ?_⟩
  intro st f base s result hframes hstack
  simp [execReturn, vpop, hstack, hframes]

/-- Claim C6, witness. -/
theorem interpret_leaves_script_closure_witness :
    execReturn ⟨[⟨.mk emptyProgramFn [], 2, 0⟩], [.nil, .nil], [], ""⟩ 0 =
      .halt { (⟨[⟨.mk emptyProgramFn [], 2, 0⟩], [.nil, .nil], [], ""⟩ : VmState)
              with frames := [], stack := [Value'.nil] } :=
  interpret_leaves_script_closure.2
    ⟨[⟨.mk emptyProgramFn [], 2, 0⟩], [.nil, .nil], [], ""⟩
    ⟨.mk emptyProgramFn [], 2, 0⟩ 0 [.nil] .nil rfl rfl

/-- Claim C7, counterexample: `add_constant` on a chunk that already holds
255 constants FAILS (`constants.len() >= u8::MAX as usize`), although the
claim would have the 256th addition succeed. -/
theorem add_constant_fails_at_255 :
    add_constant (List.replicate 255 Value'.nil) Value'.nil =
      .error "Too many constants in one chunk." := by
  rw [add_constant, List.length_replicate, if_pos (Nat.le_refl 255)]

/-- Claim C7, amended: adding a constant succeeds while the table holds at
most 254 entries (so a chunk holds at most 255 constants, indices 0-254)
and fails exactly when a 256th entry would be added — i.e. as soon as the
table holds 255 — with the error "Too many constants in one chunk.". -/
theorem add_constant_limit_255 (c : List Value') (v : Value') :
    (add_constant c v = .error "Too many constants in one chunk." ↔
        255 ≤ c.length) ∧
      (c.length < 255 → add_constant c v = .ok (c ++ [v], c.length)) := by
  constructor
  · constructor
    · intro h
      by_contra hlt
      rw [add_constant, if_neg (by omega)] at h
      exact Except.noConfusion h
    · intro h
      rw [add_constant, if_pos h]
  · intro h
    rw [add_constant, if_neg (by omega)]

/-- Claim C7, witness. -/
theorem add_constant_limit_255_witness :
    add_constant ([] : List Value') Value'.nil = .ok ([Value'.nil], 0) :=
  (add_constant_limit_255 [] Value'.nil).2 (by decide)

/-- The locals table after `k` successfully declared parameters: the
reserved slot 0 at depth 0, then parameters `1..k` at depth 1. -/
def goodLocals (k : Nat) : List (Nat × Int × Bool) :=
  (0, 0, false) :: (List.range k).map (fun i => (i + 1, 1, false))

theorem goodLocals_succ (k : Nat) :
    goodLocals (k + 1) = goodLocals k ++ [(k + 1, 1, false)] := by
  simp [goodLocals, List.range_succ]

/-- The duplicate scan finds nothing when every scanned local is a
depth-1 parameter with a different name, ending at the reserved
depth-0 slot. -/
theorem declareScan_false (m : Nat) (l : List (Nat × Int × Bool))
    (hl : ∀ x ∈ l, x.2.1 = 1 ∧ x.1 ≠ m) :
    declareScan m (l ++ [(0, 0, false)]) = false := by
  induction l with
  | nil => simp [declareScan]
  | cons x rest ih =>
    obtain ⟨hd, hn⟩ := hl x (by simp)
    obtain ⟨n, d, c⟩ := x
    simp only at hd hn
    subst hd
    rw [List.cons_append, declareScan, if_neg (by omega),
      if_neg (by simpa using hn)]
    exact ih fun y hy => hl y (by simp [hy])

theorem compileParams_succ (k : Nat) :
    compileParams (k + 1) = paramStep (compileParams k) (k + 1) := by
  simp [compileParams, List.range_succ]

/-- Every parameter of the names `1..k` differs from `k + j + 1`. -/
theorem goodLocals_scan (k j : Nat) :
    declareScan (k + j + 1) (goodLocals k).reverse = false := by
  have h : (goodLocals k).reverse =
      ((List.range k).map (fun i => (i + 1, 1, false))).reverse ++
        [(0, 0, false)] := by
    simp [goodLocals]
  rw [h]
  refine declareScan_false _ _ ?_
  intro x hx
  rw [List.mem_reverse, List.mem_map] at hx
  obtain ⟨i, hi, rfl⟩ := hx
  rw [List.mem_range] at hi
  exact ⟨rfl, by omega⟩

/-- After `k ≤ 254` parameters the compilation is error-free with arity
`k` and locals `goodLocals k`. -/
theorem compileParams_le_254 (k : Nat) (hk : k ≤ 254) :
    compileParams k =
      { arity := k, locals := goodLocals k, errors := [], panicMode := false } := by
  induction k with
  | zero => rfl
  | succ n ih =>
    rw [compileParams_succ, ih (by omega)]
    rw [paramStep]
    simp only
    rw [if_neg (by omega)]
    rw [declare_variable]
    have hscan := goodLocals_scan n 0
    rw [show n + 0 + 1 = n + 1 by omega] at hscan
    rw [hscan, if_neg (by simp)]
    rw [add_local]
    simp only
    rw [if_neg (by simp [goodLocals]; omega)]
    rw [mark_initialized]
    simp only
    rw [List.getLast?_concat]
    simp only
    rw [List.dropLast_concat]
    rw [← goodLocals_succ]

/-- The 255th parameter: the arity check passes (255 is not more than
255) but `add_local` fires "Too many local variables in function.",
because the reserved slot plus 254 parameters already fill all 255 local
slots. -/
theorem compileParams_255 :
    compileParams 255 =
      { arity := 255, locals := goodLocals 254,
        errors := ["Too many local variables in function."],
        panicMode := true } := by
  rw [show (255 : Nat) = 254 + 1 from rfl, compileParams_succ,
    compileParams_le_254 254 (by omega)]
  rw [paramStep]
  simp only
  rw [if_neg (by omega)]
  rw [declare_variable]
  have hscan := goodLocals_scan 254 0
  rw [show 254 + 0 + 1 = 255 by omega] at hscan
  rw [hscan, if_neg (by simp)]
  rw [add_local]
  simp only
  rw [if_pos (by simp [goodLocals])]
  rw [compilerError]
  simp only
  rw [if_neg (by simp)]
  rw [mark_initialized]
  simp only
  rw [show goodLocals 254 = goodLocals 253 ++ [(254, 1, false)] from
    goodLocals_succ 253]
  rw [List.getLast?_concat]
  simp only
  rw [List.dropLast_concat]
  simp

/-- The 256th parameter: panic mode (entered at the 255th) suppresses
both the "Can't have more than 255 parameters." report and the repeated
locals error, so the only reported message stays the locals one. -/
theorem compileParams_256 :
    compileParams 256 =
      { arity := 256, locals := goodLocals 254,
        errors := ["Too many local variables in function."],
        panicMode := true } := by
  rw [show (256 : Nat) = 255 + 1 from rfl, compileParams_succ,
    compileParams_255]
  rw [paramStep]
  simp only
  rw [if_pos (by omega)]
  rw [compilerError]
  simp only
  rw [if_pos (by trivial)]
  rw [declare_variable]
  have hscan := goodLocals_scan 254 1
  rw [show 254 + 1 + 1 = 256 by omega] at hscan
  rw [hscan, if_neg (by simp)]
  rw [add_local]
  simp only
  rw [if_pos (by simp [goodLocals])]
  rw [compilerError]
  simp only
  rw [if_pos (by trivial)]
  rw [mark_initialized]
  simp only
  rw [show goodLocals 254 = goodLocals 253 ++ [(254, 1, false)] from
    goodLocals_succ 253]
  rw [List.getLast?_concat]
  simp only
  rw [List.dropLast_concat]

/-- Claim C8, counterexample: a parameter list of exactly 255 parameters
does NOT compile — the 255th parameter triggers "Too many local variables
in function." (`add_local` errors once `locals.len() == 255`, and the
reserved slot 0 occupies one of the 255 local slots). -/
theorem params_255_fail :
    (compileParams 255).errors = ["Too many local variables in function."] ∧
      (compileParams 256).errors ≠ ["Can't have more than 255 parameters."] := by
  rw [compileParams_255, compileParams_256]
  exact ⟨rfl, by decide⟩

/-- Claim C8, amended: exactly 254 parameters compile without error; the
255th parameter fails with "Too many local variables in function." (each
parameter being declared through the local-variable path, and the reserved
slot 0 counting against the 255-local limit); a 256th parameter would
additionally trip the "Can't have more than 255 parameters." arity check,
but panic mode suppresses that report. -/
theorem params_254_compile :
    (compileParams 254).errors = [] ∧ (compileParams 254).arity = 254 ∧
      (compileParams 255).errors =
        ["Too many local variables in function."] ∧
      (compileParams 255).arity = 255 ∧
      (compileParams 256).errors =
        ["Too many local variables in function."] := by
  rw [compileParams_le_254 254 (by omega), compileParams_255, compileParams_256]
  exact ⟨rfl, rfl, rfl, rfl, rfl⟩

/-- Claim C9, confirmed: the compiler emits `Greater` then `Not` for `<=`
and `Less` then `Not` for `>=`, so on Number operands `a <= b` evaluates to
the same Bool as `!(a > b)` and `a >= b` to `!(a < b)` (the `Not` arm flips
a Bool); consequently with a NaN operand `a <= b` and `a >= b` evaluate to
`true` while `a < b` and `a > b` evaluate to `false`. -/
theorem comparison_le_is_not_gt (a b : F64) :
    emitComparison .lessEqual = emitComparison .greater ++ [22] ∧
      emitComparison .greaterEqual = emitComparison .less ++ [22] ∧
      runCmp .greater a b = .next (cmpResult .greater a b (F64.fgt a b)) ∧
      runCmp .less a b = .next (cmpResult .less a b (F64.flt a b)) ∧
      runCmp .lessEqual a b =
        .next (cmpResult .lessEqual a b (!F64.fgt a b)) ∧
      runCmp .greaterEqual a b =
        .next (cmpResult .greaterEqual a b (!F64.flt a b)) ∧
      F64.fgt .nan b = false ∧ F64.fgt a .nan = false ∧
      F64.flt .nan b = false ∧ F64.flt a .nan = false := by
  refine ⟨rfl, rfl, rfl, rfl, rfl, rfl, ?_, ?_, ?_, ?_⟩ <;>
    first
      | (cases b <;> rfl)
      | (cases a <;> rfl)

/-- Claim C10, confirmed: the `NativeFunction` branch of `call_value`
performs NO arity check for any argument count: the native is applied to
the top `argc` stack values, the stack is truncated by `argc + 1`, and the
result is pushed — no "Expected N arguments but got M." (nor any other)
error is possible on this path. -/
theorem native_call_no_arity_check
    (st : VmState) (native : List Value' → Value') (argc : Nat)
    (hargs : argc + 1 ≤ st.stack.length) (hcap : st.stack.length ≤ STACK_MAX) :
    callNative st native argc =
      some { st with
             stack := st.stack.take (st.stack.length - argc - 1) ++
               [native (st.stack.drop (st.stack.length - argc))] } := by
  rw [callNative, if_pos hargs]
  simp only
  rw [avPush, if_pos (by rw [List.length_take]; rw [STACK_MAX] at *; omega)]

/-- Claim C10, witness: `clock` called with 2 arguments — no arity error,
the two arguments and the callee are replaced by the clock reading. -/
theorem native_call_no_arity_check_witness :
    callNative ⟨[], [.obj 1 (.native 1), .nil, .bool true], [], ""⟩
        (clock_native 0) 2 =
      some { (⟨[], [.obj 1 (.native 1), .nil, .bool true], [], ""⟩ : VmState)
             with
             stack :=
               ([.obj 1 (.native 1), .nil, .bool true] : List Value').take
                   (([.obj 1 (.native 1), .nil, .bool true] :
                     List Value').length - 2 - 1) ++
                 [clock_native 0
                   (([.obj 1 (.native 1), .nil, .bool true] :
                     List Value').drop
                     (([.obj 1 (.native 1), .nil, .bool true] :
                       List Value').length - 2))] } :=
  native_call_no_arity_check
    ⟨[], [.obj 1 (.native 1), .nil, .bool true], [], ""⟩
    (clock_native 0) 2 (by decide) (by decide)

end RsLox
